import Mathlib

/-!
Shallow embedding of the msp432car control firmware, for checking its
natural-language specification against the code.

The embedding translates, from the C sources:
  src/src/app/state_machine.c    (FSM handlers and callbacks)
  src/src/app/main.c             (dispatch loop)
  src/src/app/remote_module.c    (IR / Bluetooth command handlers)
  src/src/app/powertrain_module.c (motion primitives, turn timing)
  src/src/app/sensing_module.c   (single / double clearance scans)
  src/src/hal/motor_hal.c, servo_hal.c, ultrasonic_hal.c

Hardware register writes (GPIO, Timer_A, Timer32, PWM compare values) have no
observable effect on the program state the claims speak about; where a claim
needs the command a function issues to the hardware layer below it, the
command is made explicit as an emitted action value.
-/

/- ===== FSM states (src/inc/state_machine.h, enum FSM_State) =====
   The C enum is an int; the state variable FSM_currentState is modelled as a
   Nat carrying the enumerator value, so that validity (being below
   NUM_STATES) is a real property of the value and not of the type. -/

def STATE_INIT : Nat := 0
def STATE_RUNNING : Nat := 1
def STATE_SENSING : Nat := 2
def STATE_TURNING : Nat := 3
def STATE_REMOTE : Nat := 4
def NUM_STATES : Nat := 5

/-- The file-scope mutable globals of src/src/app/state_machine.c
(lines 44-47) together with FSM_currentState (extern, inc/state_machine.h). -/
structure FSMGlobals where
  FSM_currentState : Nat
  controlled : Bool
  obstructed : Bool
  sensing : Bool
  turned : Bool
  deriving DecidableEq, Repr

/-- A command issued to the powertrain module (the calls a callback or
command handler can make into powertrain_module.c). -/
inductive MotorCmd
  | moveForward
  | moveBackward
  | turnLeft (angle : Nat)
  | turnRight (angle : Nat)
  | stop
  | increaseSpeed
  | decreaseSpeed
  deriving DecidableEq, Repr

/-- Embeds obstacleCallback (state_machine.c lines 265-270): sets obstructed
only when the current state is STATE_RUNNING. -/
def obstacleCallback (g : FSMGlobals) : FSMGlobals :=
  if g.FSM_currentState = STATE_RUNNING then { g with obstructed := true } else g

/-- Embeds turnedCallback (state_machine.c lines 293-298): sets turned only
when the current state is STATE_TURNING; issues no powertrain command. -/
def turnedCallback (g : FSMGlobals) : FSMGlobals :=
  if g.FSM_currentState = STATE_TURNING then { g with turned := true } else g

/-- Embeds sensingCallback (state_machine.c lines 323-337).  Step [1] clears
the sensing flag only when the state is STATE_SENSING; step [2] issues a turn
command unconditionally (the if chain on free_left / free_right is not
guarded by the state check).  The issued powertrain calls are returned as the
second component. -/
def sensingCallback (free_left free_right : Bool) (g : FSMGlobals) :
    FSMGlobals × List MotorCmd :=
  let g1 := if g.FSM_currentState = STATE_SENSING then { g with sensing := false } else g
  let cmds :=
    if free_left then [MotorCmd.turnLeft 90]
    else if free_right then [MotorCmd.turnRight 90]
    else [MotorCmd.turnRight 180]
  (g1, cmds)

/-- Embeds switchModeCallback (state_machine.c lines 361-367).  Its body is
the expression statement written in the source as the comparison
controlled != controlled; the comparison result is computed and discarded, no
global is assigned, so the globals are returned unchanged. -/
def switchModeCallback (g : FSMGlobals) : FSMGlobals :=
  let _cmp : Bool := g.controlled != g.controlled
  g

/-- Embeds the state update of FSM_init (state_machine.c line 97): the init
handler always moves to STATE_REMOTE. -/
def FSM_init_next : Nat := STATE_REMOTE

/-- Embeds the final state update of FSM_running (state_machine.c line 136),
reached when its wait loop exits: controlled selects STATE_REMOTE, otherwise
STATE_SENSING. -/
def FSM_running_next (controlled : Bool) : Nat :=
  if controlled then STATE_REMOTE else STATE_SENSING

/-- Embeds the final state update of FSM_sensing (state_machine.c line 173). -/
def FSM_sensing_next (controlled : Bool) : Nat :=
  if controlled then STATE_REMOTE else STATE_TURNING

/-- Embeds the final state update of FSM_turning (state_machine.c line 207). -/
def FSM_turning_next (controlled : Bool) : Nat :=
  if controlled then STATE_REMOTE else STATE_RUNNING

/-- Embeds the final state update of FSM_remote (state_machine.c line 241). -/
def FSM_remote_next (controlled : Bool) : Nat :=
  if controlled then STATE_REMOTE else STATE_RUNNING

/-- Modelled from the spec: the dispatch table FSM_stateMachine is declared
extern in inc/state_machine.h but defined nowhere under src/; per the spec
the main loop dispatches the handler function of the current state
(FSM_init, FSM_running, FSM_sensing, FSM_turning, FSM_remote in enumerator
order).  The surrounding loop body is the one of main (src/src/app/main.c
lines 50-56): when FSM_currentState < NUM_STATES the bound handler runs and
yields the next state, otherwise the system halts in an empty infinite loop,
modelled as none. -/
def mainLoopStep (g : FSMGlobals) : Option Nat :=
  if g.FSM_currentState < NUM_STATES then
    some (if g.FSM_currentState = STATE_INIT then FSM_init_next
      else if g.FSM_currentState = STATE_RUNNING then FSM_running_next g.controlled
      else if g.FSM_currentState = STATE_SENSING then FSM_sensing_next g.controlled
      else if g.FSM_currentState = STATE_TURNING then FSM_turning_next g.controlled
      else FSM_remote_next g.controlled)
  else none

/-- The initial values of the state-machine globals: controlled starts true
(state_machine.c line 44) and FSM_init has put the FSM in STATE_REMOTE
(line 97). -/
def initialGlobals : FSMGlobals :=
  { FSM_currentState := STATE_REMOTE, controlled := true, obstructed := false,
    sensing := false, turned := false }

/- ===== Remote command module (src/src/app/remote_module.c) =====
   IR command codes are the enumerator values of IRCommand
   (src/tests/infrared_hal.h lines 45-61). -/

def IR_COMMAND_UP : Nat := 70
def IR_COMMAND_DOWN : Nat := 21
def IR_COMMAND_LEFT : Nat := 68
def IR_COMMAND_RIGHT : Nat := 67
def IR_COMMAND_OK : Nat := 64
def IR_COMMAND_2 : Nat := 25
def IR_COMMAND_8 : Nat := 28
def IR_COMMAND_ASTERISK : Nat := 66

/-- The externally visible calls a remote command handler can make: a
powertrain operation, or the registered mode-change-request callback (the
callback the FSM registers as switchModeCallback). -/
inductive RemoteAction
  | powertrain (c : MotorCmd)
  | modeToggleCallback
  deriving DecidableEq, Repr

/-- Embeds Remote_Module_onIRMessageReceived (remote_module.c lines 39-74):
an early return drops every command other than IR_COMMAND_ASTERISK when the
FSM state is not STATE_REMOTE; otherwise a valid command is dispatched by the
switch.  The list of calls made is returned. -/
def Remote_Module_onIRMessageReceived (state : Nat) (command : Nat) (isValid : Bool) :
    List RemoteAction :=
  if state ≠ STATE_REMOTE ∧ command ≠ IR_COMMAND_ASTERISK then []
  else if isValid then
    if command = IR_COMMAND_UP then [RemoteAction.powertrain MotorCmd.moveForward]
    else if command = IR_COMMAND_DOWN then [RemoteAction.powertrain MotorCmd.moveBackward]
    else if command = IR_COMMAND_LEFT then [RemoteAction.powertrain (MotorCmd.turnLeft 45)]
    else if command = IR_COMMAND_RIGHT then [RemoteAction.powertrain (MotorCmd.turnRight 45)]
    else if command = IR_COMMAND_OK then [RemoteAction.powertrain MotorCmd.stop]
    else if command = IR_COMMAND_2 then [RemoteAction.powertrain MotorCmd.increaseSpeed]
    else if command = IR_COMMAND_8 then [RemoteAction.powertrain MotorCmd.decreaseSpeed]
    else if command = IR_COMMAND_ASTERISK then [RemoteAction.modeToggleCallback]
    else []
  else []

/-- Embeds Remote_Module_onBTMessageReceived (remote_module.c lines 76-101).
The local command buffer holds the first three characters of the message
(strncpy with count 3, then a terminating NUL); the early return drops every
token other than MAN when the FSM state is not STATE_REMOTE; otherwise the
strcmp chain dispatches the token.  The list of calls made is returned. -/
def Remote_Module_onBTMessageReceived (state : Nat) (message : List Char) :
    List RemoteAction :=
  let command := message.take 3
  if state ≠ STATE_REMOTE ∧ command ≠ ['M', 'A', 'N'] then []
  else if command = ['F', 'W', 'D'] then [RemoteAction.powertrain MotorCmd.moveForward]
  else if command = ['R', 'E', 'V'] then [RemoteAction.powertrain MotorCmd.moveBackward]
  else if command = ['L', 'F', 'T'] then [RemoteAction.powertrain (MotorCmd.turnLeft 45)]
  else if command = ['R', 'G', 'T'] then [RemoteAction.powertrain (MotorCmd.turnRight 45)]
  else if command = ['S', 'T', 'P'] then [RemoteAction.powertrain MotorCmd.stop]
  else if command = ['A', 'U', 'T'] then [RemoteAction.modeToggleCallback]
  else if command = ['M', 'A', 'N'] then [RemoteAction.modeToggleCallback]
  else []

/- ===== Motor HAL (src/src/hal/motor_hal.c, inc/motor_hal.h) ===== -/

inductive MotorDirection
  | MOTOR_DIR_FORWARD
  | MOTOR_DIR_REVERSE
  | MOTOR_DIR_STOP
  deriving DecidableEq, Repr

/-- The observable per-motor state (MotorState in inc/motor_hal.h): speed in
percent (a uint8_t) and direction. -/
structure MotorState where
  speed : Nat
  direction : MotorDirection
  deriving DecidableEq, Repr

def MOTOR_TIMER_PERIOD : Nat := 5000

/-- Embeds MOTOR_HAL_setSpeed (motor_hal.c lines 168-175): computes the PWM
duty cycle speed * MOTOR_TIMER_PERIOD / 100 (stored into a uint16_t, hence
reduced modulo 2 to the 16) and stores the requested speed unchanged into the
motor state.  Returns the updated motor state and the duty cycle written to
the compare register. -/
def MOTOR_HAL_setSpeed (m : MotorState) (speed : Nat) : MotorState × Nat :=
  let dutyCycle := speed * MOTOR_TIMER_PERIOD / 100 % 65536
  ({ m with speed := speed }, dutyCycle)

/-- Embeds MOTOR_HAL_setDirection (motor_hal.c lines 200-214): updates the
direction and zeroes the speed when the direction is MOTOR_DIR_STOP. -/
def MOTOR_HAL_setDirection (m : MotorState) (direction : MotorDirection) : MotorState :=
  let m1 := { m with direction := direction }
  if direction = MotorDirection.MOTOR_DIR_STOP then { m1 with speed := 0 } else m1

/-- Embeds MOTOR_HAL_stop (motor_hal.c lines 237-242). -/
def MOTOR_HAL_stop (_m : MotorState) : MotorState :=
  { speed := 0, direction := MotorDirection.MOTOR_DIR_STOP }

/- ===== Servo HAL (src/src/hal/servo_hal.c, inc/servo_hal.h) ===== -/

def SERVO_MIN_POSITION : Int := -90
def SERVO_MAX_POSITION : Int := 90

/-- Embeds the position update of SERVO_HAL_setPosition (servo_hal.c lines
186-210): the requested position is first clamped to
[SERVO_MIN_POSITION, SERVO_MAX_POSITION] by the two leading if statements,
then used for the PWM compare value and stored as the new servo state
position (in the branch where the servo is already there the stored position
already equals it).  The PWM programming and the position-reached timer are
hardware effects elided here; the function returns the position the servo is
commanded to and left recorded at. -/
def SERVO_HAL_setPosition (position : Int) : Int :=
  let p1 := if position < SERVO_MIN_POSITION then SERVO_MIN_POSITION else position
  if p1 > SERVO_MAX_POSITION then SERVO_MAX_POSITION else p1

/- ===== Ultrasonic HAL (src/src/hal/ultrasonic_hal.c, inc/ultrasonic_hal.h) ===== -/

def US_RESULT_INVALID : Nat := 0
def US_RESULT_NO_OBJECT : Nat := 65535

/-- The globals of ultrasonic_hal.c read by US_HAL_getMeasurement: the ready
flag and the two 16-bit captures of the 375kHz counter at the echo edges. -/
structure USState where
  isMeasurementReady : Bool
  startTick : Nat
  endTick : Nat
  deriving DecidableEq, Repr

/-- Embeds US_HAL_getMeasurement (ultrasonic_hal.c lines 188-202).
Arithmetic notes, so that the embedding is exact where the claims look:
delta is the uint16_t difference endTick - startTick (wraparound modulo 2 to
the 16); the source computes usec as delta divided by the float constant
0.375, which equals the real number delta * 8 / 3, and since delta is below
2 to the 16 the single-precision rounding error is far below 1/3, so the
integer truncation equals Nat division delta * 8 / 3; the store into the
uint16_t usec is reduced modulo 2 to the 16 (the C conversion is undefined
above that range; the reduction matches the common ARM code path).  The
final centimeter branch divides by the float 21.866, approximated here by
the rational 21866/1000 with truncation; no claim inspects that value. -/
def US_HAL_getMeasurement (u : USState) : Nat :=
  if u.isMeasurementReady = false then US_RESULT_INVALID
  else
    let delta := (u.endTick % 65536 + 65536 - u.startTick % 65536) % 65536
    let usec := delta * 8 / 3 % 65536
    if usec > 36000 then US_RESULT_NO_OBJECT
    else delta * 1000 / 21866 - 12

/- ===== Powertrain module (src/src/app/powertrain_module.c) ===== -/

def POWERTRAIN_FWD_SPEED : Nat := 40
def POWERTRAIN_REV_SPEED : Nat := 20
def POWERTRAIN_TURN_SPEED : Nat := 50
def WHEEL_MAX_ANGULAR_SPEED : Nat := 45

/-- Embeds calculate_time_from_angle (powertrain_module.c lines 389-393).
The source computes float speed = WHEEL_MAX_ANGULAR_SPEED *
(speedPercentage / 100): both operands of the inner division are integers
(a uint8_t and the literal 100), so it is C integer division, and only the
product is converted to float.  When that speed is zero the source divides
angle * 1000 by zero in float arithmetic (giving infinity) and converts the
result to uint32_t, which has no defined value: modelled as none.  Otherwise
the wait duration angle * 1000 / speed is returned (exact, since speed then
divides as a whole number: it is a multiple of 45). -/
def calculate_time_from_angle (speedPercentage angle : Nat) : Option Nat :=
  let speed := WHEEL_MAX_ANGULAR_SPEED * (speedPercentage / 100)
  if speed = 0 then none
  else some (angle * 1000 / speed)

/-- Embeds the motor-state effect of Powertrain_Module_turnLeft
(powertrain_module.c lines 292-302) on the left/right motors, and the wait
duration it requests from the shared timer: both motors are set to
POWERTRAIN_TURN_SPEED in opposite directions, and the duration comes from
calculate_time_from_angle with the fixed POWERTRAIN_TURN_SPEED. -/
def Powertrain_Module_turnLeft (left right : MotorState) (angle : Nat) :
    (MotorState × MotorState) × Option Nat :=
  let l1 := MOTOR_HAL_setDirection left MotorDirection.MOTOR_DIR_REVERSE
  let r1 := MOTOR_HAL_setDirection right MotorDirection.MOTOR_DIR_FORWARD
  let l2 := (MOTOR_HAL_setSpeed l1 POWERTRAIN_TURN_SPEED).1
  let r2 := (MOTOR_HAL_setSpeed r1 POWERTRAIN_TURN_SPEED).1
  ((l2, r2), calculate_time_from_angle POWERTRAIN_TURN_SPEED angle)

/-- Modelled from the spec: Powertrain_Module_increaseSpeed is called from
remote_module.c line 61 and exercised by tests/unit-tests/
ut_powertrain_module.c, but no definition for it exists under src/.  Per the
spec (section 4.2): increaseSpeed()/decreaseSpeed() change the speed by 10
percentage points, clamped to [20,100] while moving, and are a no-op while
stopped.  Both motor pairs are updated alike; the function acts on one motor
state. -/
def Powertrain_Module_increaseSpeed (m : MotorState) : MotorState :=
  if m.direction = MotorDirection.MOTOR_DIR_STOP then m
  else { m with speed := min (m.speed + 10) 100 }

/-- Modelled from the spec: Powertrain_Module_decreaseSpeed, the decreasing
counterpart of Powertrain_Module_increaseSpeed (same missing source, same
spec sentence): minus 10 percentage points, clamped below at 20 while
moving, no-op while stopped. -/
def Powertrain_Module_decreaseSpeed (m : MotorState) : MotorState :=
  if m.direction = MotorDirection.MOTOR_DIR_STOP then m
  else { m with speed := max (m.speed - 10) 20 }

/- ===== Sensing module (src/src/app/sensing_module.c) ===== -/

def SENSING_FREE_THRESHOLD : Nat := 20
def SERVO_POS_LEFT : Int := SERVO_MAX_POSITION
def SERVO_POS_RIGHT : Int := SERVO_MIN_POSITION

inductive SensingMode
  | SENSING_SINGLE_SAMPLE_MODE
  | SENSING_DOUBLE_SAMPLE_MODE
  deriving DecidableEq, Repr

/-- The scan-session globals of sensing_module.c (lines 66-72): mode, the
stored first sample, the second target bearing and the sample counter (a
uint8_t). -/
structure SensingState where
  currentSensingMode : SensingMode
  previousSample : Nat
  nextDirection : Int
  sampleCount : Nat
  deriving DecidableEq, Repr

/-- The calls the sensing module makes downward (re-pointing the servo, which
re-arms the position-reached / trigger-measurement chain) and upward (the
registered single / double measurement-ready callbacks; FSM_init registers
both, so the NULL guards of the source pass). -/
inductive SensingAction
  | servoSetPosition (deg : Int)
  | singleCallback (free : Bool)
  | doubleCallback (free1 free2 : Bool)
  deriving DecidableEq, Repr

/-- Embeds Sensing_Module_checkDoubleClearance (sensing_module.c lines
159-163): sets double mode, records the second bearing, and points the servo
at the first bearing. -/
def Sensing_Module_checkDoubleClearance (s : SensingState) (deg1 deg2 : Int) :
    SensingState × List SensingAction :=
  ({ s with currentSensingMode := SensingMode.SENSING_DOUBLE_SAMPLE_MODE,
            nextDirection := deg2 },
   [SensingAction.servoSetPosition deg1])

/-- Embeds Sensing_Module_checkSingleClearance (sensing_module.c lines
129-132). -/
def Sensing_Module_checkSingleClearance (s : SensingState) (deg : Int) :
    SensingState × List SensingAction :=
  ({ s with currentSensingMode := SensingMode.SENSING_SINGLE_SAMPLE_MODE },
   [SensingAction.servoSetPosition deg])

/-- Embeds Sensing_Module_onUSMeasurementReady (sensing_module.c lines
288-305).  In single mode the single callback gets the clearance bit at
once; in double mode the counter (a uint8_t, incremented modulo 256) decides:
on the first sample the distance is stored and the servo re-pointed at the
recorded second bearing, on the second the counter is reset to zero and the
double callback gets both clearance bits. -/
def Sensing_Module_onUSMeasurementReady (distance : Nat) (s : SensingState) :
    SensingState × List SensingAction :=
  if s.currentSensingMode = SensingMode.SENSING_SINGLE_SAMPLE_MODE then
    (s, [SensingAction.singleCallback (decide (distance > SENSING_FREE_THRESHOLD))])
  else
    let count := (s.sampleCount + 1) % 256
    if count < 2 then
      ({ s with sampleCount := count, previousSample := distance },
       [SensingAction.servoSetPosition s.nextDirection])
    else
      ({ s with sampleCount := 0 },
       [SensingAction.doubleCallback (decide (s.previousSample > SENSING_FREE_THRESHOLD))
          (decide (distance > SENSING_FREE_THRESHOLD))])

/-- Embeds Sensing_Module_checkLateralClearance (sensing_module.c lines
185-187): a double scan at the left and right extremes. -/
def Sensing_Module_checkLateralClearance (s : SensingState) :
    SensingState × List SensingAction :=
  Sensing_Module_checkDoubleClearance s SERVO_POS_LEFT SERVO_POS_RIGHT

/-- The sensing-module globals after Sensing_Module_init (sensing_module.c
lines 95-104): single mode, sample counter zero; the remaining globals are
zero-initialized C file-scope variables. -/
def sensingInitState : SensingState :=
  { currentSensingMode := SensingMode.SENSING_SINGLE_SAMPLE_MODE,
    previousSample := 0, nextDirection := 0, sampleCount := 0 }

/- ===== Helper lemmas ===== -/

theorem increaseSpeed_le (m : MotorState) (h : m.speed ≤ 100) :
    (Powertrain_Module_increaseSpeed m).speed ≤ 100 := by
  unfold Powertrain_Module_increaseSpeed
  split
  · exact h
  · exact min_le_right _ _

theorem decreaseSpeed_ge (m : MotorState)
    (h : m.direction ≠ MotorDirection.MOTOR_DIR_STOP) :
    20 ≤ (Powertrain_Module_decreaseSpeed m).speed := by
  unfold Powertrain_Module_decreaseSpeed
  rw [if_neg h]
  exact le_max_right _ _

theorem decreaseSpeed_direction (m : MotorState) :
    (Powertrain_Module_decreaseSpeed m).direction = m.direction := by
  unfold Powertrain_Module_decreaseSpeed
  split <;> rfl

/- ===== Claim theorems ===== -/

/-- C1: the claim is contradicted by the code at its own stated mechanism:
switchModeCallback is supposed to flip the controlled flag, but the source
line is the comparison controlled != controlled whose result is discarded,
so delivering the mode-toggle changes nothing.  Evaluated at the failing
input (STATE_REMOTE with controlled at its initial value true): the globals
are unchanged and the REMOTE handler computes STATE_REMOTE again instead of
the STATE_RUNNING the claim requires. -/
theorem switchModeCallback_no_toggle_in_remote :
    switchModeCallback initialGlobals = initialGlobals ∧
    FSM_remote_next (switchModeCallback initialGlobals).controlled = STATE_REMOTE ∧
    STATE_REMOTE ≠ STATE_RUNNING := by
  decide

/-- C2: the claim fails on sensingCallback: delivered while FSM_currentState
is already STATE_REMOTE (here with free_left true), it still issues the
motion command Powertrain_Module_turnLeft(90) because its turn-choice chain
is not guarded by the state check that guards the flag update. -/
theorem sensingCallback_issues_turn_in_remote :
    initialGlobals.FSM_currentState = STATE_REMOTE ∧
    (sensingCallback true false initialGlobals).2 = [MotorCmd.turnLeft 90] ∧
    (sensingCallback true false initialGlobals).2 ≠ [] := by
  decide

/-- C3: the turn-choice policy of the scan-completion callback: free_left
true gives a 90-degree left turn; otherwise free_right true gives a
90-degree right turn; otherwise a 180-degree turn (to the right, the
implementation's choice), in every controller state. -/
theorem sensingCallback_turn_choice :
    (∀ (r : Bool) (g : FSMGlobals),
        (sensingCallback true r g).2 = [MotorCmd.turnLeft 90]) ∧
    (∀ g : FSMGlobals, (sensingCallback false true g).2 = [MotorCmd.turnRight 90]) ∧
    (∀ g : FSMGlobals, (sensingCallback false false g).2 = [MotorCmd.turnRight 180]) :=
  ⟨fun _ _ => rfl, fun _ => rfl, fun _ => rfl⟩

/-- C4: the double-clearance scan protocol: starting a double scan with a
zero sample counter, the first measurement D1 is stored and the only action
is re-pointing the servo at the second bearing (no callback yet); the second
measurement D2 produces exactly one action, the double callback with the
pair (D1 > threshold, D2 > threshold), and resets the sample counter to
zero. -/
theorem doubleClearance_scan_protocol (s0 : SensingState) (deg1 deg2 : Int)
    (d1 d2 : Nat) (h0 : s0.sampleCount = 0) :
    (Sensing_Module_onUSMeasurementReady d1
        (Sensing_Module_checkDoubleClearance s0 deg1 deg2).1).1.previousSample = d1 ∧
    (Sensing_Module_onUSMeasurementReady d1
        (Sensing_Module_checkDoubleClearance s0 deg1 deg2).1).2 =
      [SensingAction.servoSetPosition deg2] ∧
    (Sensing_Module_onUSMeasurementReady d2
        (Sensing_Module_onUSMeasurementReady d1
            (Sensing_Module_checkDoubleClearance s0 deg1 deg2).1).1).2 =
      [SensingAction.doubleCallback (decide (d1 > SENSING_FREE_THRESHOLD))
          (decide (d2 > SENSING_FREE_THRESHOLD))] ∧
    (Sensing_Module_onUSMeasurementReady d2
        (Sensing_Module_onUSMeasurementReady d1
            (Sensing_Module_checkDoubleClearance s0 deg1 deg2).1).1).1.sampleCount = 0 := by
  simp [Sensing_Module_checkDoubleClearance, Sensing_Module_onUSMeasurementReady, h0]

/-- C4 witness: the protocol theorem evaluated on the session produced by
Sensing_Module_init, bearings 90 and -90, distances 30 and 10: the double
callback reports (true, false). -/
theorem doubleClearance_scan_protocol_witness :
    (Sensing_Module_onUSMeasurementReady 30
        (Sensing_Module_checkDoubleClearance sensingInitState 90 (-90)).1).1.previousSample
      = 30 ∧
    (Sensing_Module_onUSMeasurementReady 30
        (Sensing_Module_checkDoubleClearance sensingInitState 90 (-90)).1).2 =
      [SensingAction.servoSetPosition (-90)] ∧
    (Sensing_Module_onUSMeasurementReady 10
        (Sensing_Module_onUSMeasurementReady 30
            (Sensing_Module_checkDoubleClearance sensingInitState 90 (-90)).1).1).2 =
      [SensingAction.doubleCallback (decide (30 > SENSING_FREE_THRESHOLD))
          (decide (10 > SENSING_FREE_THRESHOLD))] ∧
    (Sensing_Module_onUSMeasurementReady 10
        (Sensing_Module_onUSMeasurementReady 30
            (Sensing_Module_checkDoubleClearance sensingInitState 90 (-90)).1).1).1.sampleCount
      = 0 :=
  doubleClearance_scan_protocol sensingInitState 90 (-90) 30 10 rfl

/-- C5 counterexample: the claim states that the mode-toggle tokens
(asterisk, AUT, MAN) are accepted in any state, but the Bluetooth token AUT
delivered in STATE_RUNNING is dropped by the early state guard (whose only
exemption is MAN): the handler makes no call at all. -/
theorem bt_aut_dropped_outside_remote :
    Remote_Module_onBTMessageReceived STATE_RUNNING ['A', 'U', 'T'] = [] := by
  decide

/-- C5 amended: outside STATE_REMOTE every IR command other than the
asterisk and every Bluetooth token other than MAN is dropped without any
powertrain call or callback; the IR asterisk and the Bluetooth MAN token are
accepted (fire the mode-change callback) in every state; the Bluetooth AUT
token fires the callback only in STATE_REMOTE. -/
theorem remote_command_gating (state : Nat) :
    (∀ (command : Nat) (isValid : Bool), state ≠ STATE_REMOTE →
        command ≠ IR_COMMAND_ASTERISK →
        Remote_Module_onIRMessageReceived state command isValid = []) ∧
    Remote_Module_onIRMessageReceived state IR_COMMAND_ASTERISK true =
      [RemoteAction.modeToggleCallback] ∧
    (∀ message : List Char, state ≠ STATE_REMOTE → message.take 3 ≠ ['M', 'A', 'N'] →
        Remote_Module_onBTMessageReceived state message = []) ∧
    Remote_Module_onBTMessageReceived state ['M', 'A', 'N'] =
      [RemoteAction.modeToggleCallback] ∧
    Remote_Module_onBTMessageReceived STATE_REMOTE ['A', 'U', 'T'] =
      [RemoteAction.modeToggleCallback] := by
  refine ⟨?_, ?_, ?_, ?_, ?_⟩
  · intro command isValid h1 h2
    unfold Remote_Module_onIRMessageReceived
    rw [if_pos ⟨h1, h2⟩]
  · unfold Remote_Module_onIRMessageReceived
    rw [if_neg (by simp)]
    decide
  · intro message h1 h2
    unfold Remote_Module_onBTMessageReceived
    rw [if_pos ⟨h1, h2⟩]
  · unfold Remote_Module_onBTMessageReceived
    rw [if_neg (by simp)]
    decide
  · decide

/-- C5 witness: the amended gating evaluated in STATE_RUNNING: the IR up
command and the Bluetooth FWD token are dropped, while the IR asterisk still
fires the mode-change callback. -/
theorem remote_command_gating_witness :
    Remote_Module_onIRMessageReceived STATE_RUNNING IR_COMMAND_UP true = [] ∧
    Remote_Module_onBTMessageReceived STATE_RUNNING ['F', 'W', 'D'] = [] ∧
    Remote_Module_onIRMessageReceived STATE_RUNNING IR_COMMAND_ASTERISK true =
      [RemoteAction.modeToggleCallback] :=
  ⟨(remote_command_gating STATE_RUNNING).1 IR_COMMAND_UP true (by decide) (by decide),
   (remote_command_gating STATE_RUNNING).2.2.1 ['F', 'W', 'D'] (by decide) (by decide),
   (remote_command_gating STATE_RUNNING).2.1⟩

/-- C6: speed stepping of the powertrain (modelled from the spec, see
Powertrain_Module_increaseSpeed): iterating increaseSpeed from any speed at
most 100 never exceeds 100; iterating decreaseSpeed at least once while
moving never goes below 20; away from the clamp bounds one invocation moves
the speed by exactly 10 percentage points; both operations are no-ops while
the motors are stopped. -/
theorem powertrain_speed_ops (m : MotorState) (k : Nat) :
    (m.speed ≤ 100 → (Powertrain_Module_increaseSpeed^[k] m).speed ≤ 100) ∧
    (m.direction ≠ MotorDirection.MOTOR_DIR_STOP → 1 ≤ k →
        20 ≤ (Powertrain_Module_decreaseSpeed^[k] m).speed) ∧
    (m.direction ≠ MotorDirection.MOTOR_DIR_STOP → m.speed + 10 ≤ 100 →
        (Powertrain_Module_increaseSpeed m).speed = m.speed + 10) ∧
    (m.direction ≠ MotorDirection.MOTOR_DIR_STOP → 30 ≤ m.speed →
        (Powertrain_Module_decreaseSpeed m).speed = m.speed - 10) ∧
    (m.direction = MotorDirection.MOTOR_DIR_STOP →
        Powertrain_Module_increaseSpeed m = m ∧ Powertrain_Module_decreaseSpeed m = m) := by
  refine ⟨?_, ?_, ?_, ?_, ?_⟩
  · intro h
    induction k generalizing m with
    | zero => exact h
    | succ n ih =>
      rw [Function.iterate_succ_apply]
      exact ih _ (increaseSpeed_le m h)
  · intro hdir hk
    induction k generalizing m with
    | zero => omega
    | succ n ih =>
      rw [Function.iterate_succ_apply]
      rcases Nat.eq_zero_or_pos n with h1 | h1
      · subst h1
        simpa using decreaseSpeed_ge m hdir
      · exact ih _ (by rw [decreaseSpeed_direction]; exact hdir) h1
  · intro hdir hle
    unfold Powertrain_Module_increaseSpeed
    rw [if_neg hdir]
    simp
    omega
  · intro hdir hge
    unfold Powertrain_Module_decreaseSpeed
    rw [if_neg hdir]
    simp
    omega
  · intro hdir
    constructor
    · unfold Powertrain_Module_increaseSpeed
      rw [if_pos hdir]
    · unfold Powertrain_Module_decreaseSpeed
      rw [if_pos hdir]

/-- C6 witness: the stepping theorem evaluated on a forward-moving motor at
the default forward speed 40 with two iterations, and on a stopped motor. -/
theorem powertrain_speed_ops_witness :
    (Powertrain_Module_increaseSpeed^[2]
        { speed := 40, direction := MotorDirection.MOTOR_DIR_FORWARD }).speed ≤ 100 ∧
    20 ≤ (Powertrain_Module_decreaseSpeed^[2]
        { speed := 40, direction := MotorDirection.MOTOR_DIR_FORWARD }).speed ∧
    (Powertrain_Module_increaseSpeed
        { speed := 40, direction := MotorDirection.MOTOR_DIR_FORWARD }).speed = 50 ∧
    Powertrain_Module_increaseSpeed
        { speed := 0, direction := MotorDirection.MOTOR_DIR_STOP } =
      { speed := 0, direction := MotorDirection.MOTOR_DIR_STOP } :=
  ⟨(powertrain_speed_ops _ 2).1 (by decide),
   (powertrain_speed_ops _ 2).2.1 (by decide) (by decide),
   (powertrain_speed_ops { speed := 40, direction := MotorDirection.MOTOR_DIR_FORWARD } 2).2.2.1
     (by decide) (by decide),
   ((powertrain_speed_ops { speed := 0, direction := MotorDirection.MOTOR_DIR_STOP } 2).2.2.2.2
     rfl).1⟩

/-- C7 counterexample: the claim states that MOTOR_HAL_setSpeed clamps an
out-of-range speed percentage to the nearest bound; for the request 150 the
stored motor speed is 150, not the bound 100. -/
theorem motor_setSpeed_not_clamped :
    (MOTOR_HAL_setSpeed { speed := 0, direction := MotorDirection.MOTOR_DIR_FORWARD }
        150).1.speed = 150 ∧
    (MOTOR_HAL_setSpeed { speed := 0, direction := MotorDirection.MOTOR_DIR_FORWARD }
        150).1.speed ≠ 100 := by
  decide

/-- C7 amended: SERVO_HAL_setPosition clamps a requested bearing below -90
or above +90 to the nearest bound and passes an in-range bearing through,
while MOTOR_HAL_setSpeed performs no clamping: it stores whatever speed
percentage is requested. -/
theorem servo_clamps_motor_does_not (position : Int) (m : MotorState) (speed : Nat) :
    (position < SERVO_MIN_POSITION → SERVO_HAL_setPosition position = SERVO_MIN_POSITION) ∧
    (position > SERVO_MAX_POSITION → SERVO_HAL_setPosition position = SERVO_MAX_POSITION) ∧
    (SERVO_MIN_POSITION ≤ position → position ≤ SERVO_MAX_POSITION →
        SERVO_HAL_setPosition position = position) ∧
    (MOTOR_HAL_setSpeed m speed).1.speed = speed := by
  refine ⟨?_, ?_, ?_, rfl⟩ <;>
    · intros
      simp only [SERVO_HAL_setPosition, SERVO_MIN_POSITION, SERVO_MAX_POSITION] at *
      split_ifs <;> omega

/-- C7 witness: the clamping theorem evaluated at bearings -100, 95 and 30
and at the speed request 150. -/
theorem servo_clamps_motor_does_not_witness :
    SERVO_HAL_setPosition (-100) = SERVO_MIN_POSITION ∧
    SERVO_HAL_setPosition 95 = SERVO_MAX_POSITION ∧
    SERVO_HAL_setPosition 30 = 30 ∧
    (MOTOR_HAL_setSpeed { speed := 0, direction := MotorDirection.MOTOR_DIR_FORWARD }
        150).1.speed = 150 :=
  ⟨(servo_clamps_motor_does_not (-100)
      { speed := 0, direction := MotorDirection.MOTOR_DIR_FORWARD } 150).1 (by decide),
   (servo_clamps_motor_does_not 95
      { speed := 0, direction := MotorDirection.MOTOR_DIR_FORWARD } 150).2.1 (by decide),
   (servo_clamps_motor_does_not 30
      { speed := 0, direction := MotorDirection.MOTOR_DIR_FORWARD } 150).2.2.1
     (by decide) (by decide),
   (servo_clamps_motor_does_not 30
      { speed := 0, direction := MotorDirection.MOTOR_DIR_FORWARD } 150).2.2.2⟩

/-- C8: US_HAL_getMeasurement returns the distinguished no-object sentinel
US_RESULT_NO_OBJECT when the completed echo round-trip time exceeds 36 ms
(that is, the microsecond value delta * 8 / 3 computed from the tick delta
exceeds 36000; the bound below 2 to the 16 keeps the uint16_t store of usec
inside its defined range), and US_RESULT_INVALID when no measurement is
ready; the two sentinels are distinct. -/
theorem us_measurement_sentinels (u v : USState)
    (hready : u.isMeasurementReady = true)
    (htime : 36000 < (u.endTick % 65536 + 65536 - u.startTick % 65536) % 65536 * 8 / 3)
    (hfit : (u.endTick % 65536 + 65536 - u.startTick % 65536) % 65536 * 8 / 3 < 65536)
    (hnot : v.isMeasurementReady = false) :
    US_HAL_getMeasurement u = US_RESULT_NO_OBJECT ∧
    US_HAL_getMeasurement v = US_RESULT_INVALID ∧
    US_RESULT_NO_OBJECT ≠ US_RESULT_INVALID := by
  refine ⟨?_, ?_, by decide⟩
  · unfold US_HAL_getMeasurement
    rw [hready]
    simp only [Bool.true_eq_false, if_false]
    rw [Nat.mod_eq_of_lt hfit, if_pos htime]
  · unfold US_HAL_getMeasurement
    rw [hnot]
    simp

/-- C8 witness: the sentinel theorem evaluated on a completed measurement
with a 14000-tick echo (about 37.3 ms, beyond the 36 ms window) and on a
not-ready sensor state. -/
theorem us_measurement_sentinels_witness :
    US_HAL_getMeasurement { isMeasurementReady := true, startTick := 0, endTick := 14000 } =
      US_RESULT_NO_OBJECT ∧
    US_HAL_getMeasurement { isMeasurementReady := false, startTick := 0, endTick := 0 } =
      US_RESULT_INVALID ∧
    US_RESULT_NO_OBJECT ≠ US_RESULT_INVALID :=
  us_measurement_sentinels
    { isMeasurementReady := true, startTick := 0, endTick := 14000 }
    { isMeasurementReady := false, startTick := 0, endTick := 0 }
    rfl (by decide) (by decide) rfl

/-- C9: from any valid current state (below NUM_STATES) the dispatch loop
body runs a handler (never the halt branch) and every handler writes only a
valid state, so validity of FSM_currentState is an invariant; and none of
the registered callbacks writes FSM_currentState at all. -/
theorem fsm_state_validity (g : FSMGlobals) (free_left free_right : Bool)
    (h : g.FSM_currentState < NUM_STATES) :
    mainLoopStep g ≠ none ∧
    (mainLoopStep g).getD NUM_STATES < NUM_STATES ∧
    (obstacleCallback g).FSM_currentState = g.FSM_currentState ∧
    (turnedCallback g).FSM_currentState = g.FSM_currentState ∧
    ((sensingCallback free_left free_right g).1).FSM_currentState = g.FSM_currentState ∧
    (switchModeCallback g).FSM_currentState = g.FSM_currentState := by
  refine ⟨?_, ?_, ?_, ?_, ?_, rfl⟩
  · simp [mainLoopStep, h]
  · simp only [mainLoopStep, if_pos h, Option.getD_some]
    have hb : ∀ b : Bool, FSM_running_next b < NUM_STATES ∧ FSM_sensing_next b < NUM_STATES ∧
        FSM_turning_next b < NUM_STATES ∧ FSM_remote_next b < NUM_STATES := by decide
    split_ifs
    · decide
    · exact (hb g.controlled).1
    · exact (hb g.controlled).2.1
    · exact (hb g.controlled).2.2.1
    · exact (hb g.controlled).2.2.2
  · unfold obstacleCallback
    split <;> rfl
  · unfold turnedCallback
    split <;> rfl
  · unfold sensingCallback
    simp only
    split <;> rfl

/-- C9 witness: the invariant theorem evaluated at the post-init globals
(STATE_REMOTE, which is below NUM_STATES). -/
theorem fsm_state_validity_witness :
    mainLoopStep initialGlobals ≠ none ∧
    (mainLoopStep initialGlobals).getD NUM_STATES < NUM_STATES ∧
    (obstacleCallback initialGlobals).FSM_currentState = initialGlobals.FSM_currentState ∧
    (turnedCallback initialGlobals).FSM_currentState = initialGlobals.FSM_currentState ∧
    ((sensingCallback true false initialGlobals).1).FSM_currentState =
      initialGlobals.FSM_currentState ∧
    (switchModeCallback initialGlobals).FSM_currentState = initialGlobals.FSM_currentState :=
  fsm_state_validity initialGlobals true false (by decide)

/-- C10: the claim that calculate_time_from_angle divides by a nonzero
angular speed fails at the very input the turn operations pass: with the
fixed POWERTRAIN_TURN_SPEED of 50, the C integer division 50 / 100 is 0, so
the intermediate speed WHEEL_MAX_ANGULAR_SPEED * (50 / 100) is 0 and the
duration division is a division by zero (no defined result, modelled as
none); shown here through Powertrain_Module_turnLeft at angle 90. -/
theorem turn_time_division_by_zero :
    WHEEL_MAX_ANGULAR_SPEED * (POWERTRAIN_TURN_SPEED / 100) = 0 ∧
    calculate_time_from_angle POWERTRAIN_TURN_SPEED 90 = none ∧
    (Powertrain_Module_turnLeft
        { speed := 40, direction := MotorDirection.MOTOR_DIR_FORWARD }
        { speed := 40, direction := MotorDirection.MOTOR_DIR_FORWARD } 90).2 = none := by
  decide
